import Mathlib

/-!
Verification of the Kakeibo household-finance app's computational core:
the savings-goal progress calculator (`src/app/dashboard/goals/page.tsx`,
`fetchGoals` / `handleCreateGoal`), the daily transaction aggregation
(`fetchTransactions` in the history screen), and the amount validation of
the two transaction-entry screens.

Modelling conventions:
* JS numbers are modelled as rationals (ℚ); a database value that may fail
  numeric coercion (`Number(x)` giving `NaN`, or `parseFloat` failing) is an
  `Option ℚ`, with `none` standing for the non-numeric case.
* `Number(x) || 0` is `numberOr0`.
* Calendar-date parsing (`new Date(s)` plus date-fns `differenceInMonths`,
  `differenceInDays`, `toISOString().slice(0,10)`) is abstracted into a
  `DateEnv`: `parseDate s = none` models `isNaN(new Date(s).getTime())`,
  and a successful parse carries the two date-fns differences relative to
  `today` and the ISO day string.
* A JS `Map` keyed by date strings is an insertion-ordered association
  list; `set` on an existing key replaces in place, as `Map.prototype.set`
  does.
-/

/-- `Number(x) || 0`: non-numeric (NaN) coerces to 0, numbers pass through
(0 itself is falsy and becomes the literal 0, which is the same value). -/
def numberOr0 (x : Option ℚ) : ℚ := x.getD 0

/-- JS truthiness of a nullable string: `null`, `undefined` and `""` are
falsy, every other string is truthy. -/
def strTruthy : Option String → Bool
  | none => false
  | some s => s ≠ ""

/-- Result of a successful `new Date(deadline)` parse: the values the code
reads off it — `differenceInMonths(deadlineDate, today)`,
`differenceInDays(deadlineDate, today)` and
`deadlineDate.toISOString().slice(0, 10)`. -/
structure ParsedDate where
  monthsFromNow : Int
  daysFromNow : Int
  isoDate : String
  deriving DecidableEq, Repr

/-- The date environment: parsing relative to a fixed `today`.
`parseDate s = none` models an invalid date (`isNaN(getTime())`). -/
structure DateEnv where
  parseDate : String → Option ParsedDate

/-- A raw `savings_goals` row as fetched from the store. Amount columns are
`Option ℚ` (`none` = a value whose `Number` coercion is NaN). -/
structure SavingsGoal where
  goal_id : Int
  goal_name : String
  target_amount : Option ℚ
  current_amount : Option ℚ
  deadline : Option String
  is_active : Bool
  deriving DecidableEq, Repr

/-- The derived record built by `fetchGoals` for one goal. -/
structure GoalWithCalculations where
  goal_id : Int
  goal_name : String
  target_amount : ℚ
  current_amount : ℚ
  progress_percentage : ℚ
  monthly_required_amount : ℚ
  days_remaining : Option Int
  months_remaining : Option Int
  deadline : String
  is_active : Bool
  deriving DecidableEq, Repr

/-- The deadline-parsing step of `fetchGoals`: attempted only when
`goal.deadline` is truthy, and `none` when `new Date` yields an invalid
date. -/
def parseDeadline (env : DateEnv) (g : SavingsGoal) : Option ParsedDate :=
  if strTruthy g.deadline then env.parseDate (g.deadline.getD "") else none

/-- The per-goal computation inside `fetchGoals` (goals page): coerce the
amounts, derive progress, parse the deadline, derive months/days remaining
and the monthly required amount, and clamp for display. -/
def fetchGoalsCalc (env : DateEnv) (g : SavingsGoal) : GoalWithCalculations :=
  let targetAmount := numberOr0 g.target_amount
  let currentAmount := numberOr0 g.current_amount
  let progress := if targetAmount > 0 then currentAmount / targetAmount * 100 else 0
  let validDeadline := parseDeadline env g
  let monthsRemaining : Option Int := validDeadline.map (·.monthsFromNow)
  let daysRemaining : Option Int := validDeadline.map (·.daysFromNow)
  let monthlyRequired : ℚ :=
    match validDeadline with
    | some p =>
        if p.monthsFromNow > 0 then (targetAmount - currentAmount) / (p.monthsFromNow : ℚ)
        else 0
    | none => 0
  { goal_id := g.goal_id
    goal_name := g.goal_name
    target_amount := targetAmount
    current_amount := currentAmount
    progress_percentage := min progress 100
    monthly_required_amount := max monthlyRequired 0
    days_remaining := daysRemaining
    months_remaining := monthsRemaining
    deadline :=
      match validDeadline with
      | some p => p.isoDate
      | none => (g.deadline.getD "")
    is_active := g.is_active }

/-- Payload of the `savings_goals` insert issued by `handleCreateGoal`. -/
structure GoalInsert where
  goal_name : String
  target_amount : ℚ
  current_amount : ℚ
  deadline : Option String
  is_active : Bool
  deriving DecidableEq, Repr

/-- Outcome of a goal-creation submit: either a local validation error
(no store call) or an insert with the given payload. -/
inductive CreateGoalResult where
  | validationError (msg : String)
  | insert (payload : GoalInsert)
  deriving DecidableEq, Repr

/-- `handleCreateGoal` (goals page): `parseFloat(newGoal.target_amount)` is
the `Option ℚ` argument; rejects NaN or `targetAmount <= 0`, otherwise
inserts with `current_amount: 0`, `deadline: newGoal.deadline || null`,
`is_active: true`. -/
def handleCreateGoal (goal_name : String) (target_amount : Option ℚ)
    (deadline : String) : CreateGoalResult :=
  match target_amount with
  | none => .validationError "目標金額を正しく入力してください"
  | some t =>
      if t ≤ 0 then .validationError "目標金額を正しく入力してください"
      else .insert
        { goal_name := goal_name
          target_amount := t
          current_amount := 0
          deadline := if deadline = "" then none else some deadline
          is_active := true }

/-- A date environment with a single parseable date string, for concrete
evaluations. -/
def sampleEnv : DateEnv :=
  { parseDate := fun s =>
      if s = "2099-01-02" then some ⟨5, 150, "2099-01-02"⟩
      else if s = "1999-01-02" then some ⟨-2, -60, "1999-01-02"⟩
      else if s = "2026-10-20" then some ⟨0, 9, "2026-10-20"⟩
      else none }

/-- Transaction type: the closed two-variant tag. -/
inductive TxType where
  | income
  | expense
  deriving DecidableEq, Repr

/-- Payload of the `transactions` insert issued by an entry screen. -/
structure TxnInsert where
  type : TxType
  amount : ℚ
  category_id : Int
  memo : Option String
  date : String
  deriving DecidableEq, Repr

/-- Outcome of a transaction-entry submit: either a local validation error
(no store call) or an insert with the given payload. -/
inductive SubmitResult where
  | validationError (msg : String)
  | insert (payload : TxnInsert)
  deriving DecidableEq, Repr

/-- `handleSubmit` of `src/app/dashboard/input/page.tsx`:
`parseFloat(amount)` is the `Option ℚ` argument; rejects NaN or
`amountValue <= 0`; the insert payload uses the hardcoded
`category_id: 1` (the `category` form state is ignored) and
`memo: note || null`. -/
def inputPageHandleSubmit (transactionType : TxType) (amount : Option ℚ)
    (category : String) (note : String) (date : String) : SubmitResult :=
  match amount with
  | none => .validationError "金額を正しく入力してください"
  | some a =>
      if a ≤ 0 then .validationError "金額を正しく入力してください"
      else .insert
        { type := transactionType
          amount := a
          category_id := 1
          memo := if note = "" then none else some note
          date := date }

/-- `handleSubmit` of the second entry screen (`src/unnamed/part_000`):
rejects NaN or `parsedAmount < 0` (zero passes), then a null category;
the insert payload carries the selected `categoryId` and
`memo: memo || null`. -/
def part000HandleSubmit (transactionType : TxType) (amount : Option ℚ)
    (categoryId : Option Int) (date : String) (memo : String) : SubmitResult :=
  match amount with
  | none => .validationError "金額を正しく入力してください"
  | some a =>
      if a < 0 then .validationError "金額を正しく入力してください"
      else
        match categoryId with
        | none => .validationError "カテゴリーを選択してください"
        | some cid => .insert
            { type := transactionType
              amount := a
              category_id := cid
              memo := if memo = "" then none else some memo
              date := date }

/-- A fetched `transactions` row, restricted to the fields the daily
aggregation reads. -/
structure Txn where
  date : String
  type : TxType
  amount : ℚ
  deriving DecidableEq, Repr

/-- Per-day running totals (`DailyTotal` in the history screen). -/
structure DailyTotal where
  income : ℚ
  expense : ℚ
  net : ℚ
  deriving DecidableEq, Repr

/-- The daily-totals map: an insertion-ordered association list keyed by
date string, as a JS `Map`. -/
abbrev TotalsMap := List (String × DailyTotal)

/-- `Map.prototype.get`. -/
def mapGet (m : TotalsMap) (k : String) : Option DailyTotal :=
  match m with
  | [] => none
  | (k', v) :: rest => if k' = k then some v else mapGet rest k

/-- `Map.prototype.set`: replace in place on an existing key, append
otherwise. -/
def mapSet (m : TotalsMap) (k : String) (v : DailyTotal) : TotalsMap :=
  match m with
  | [] => [(k, v)]
  | (k', v') :: rest => if k' = k then (k, v) :: rest else (k', v') :: mapSet rest k v

/-- One step of the aggregation loop in `fetchTransactions`: fetch the
bucket for `tx.date` (default all-zero), add the amount to `income` for an
income transaction and to `expense` otherwise, recompute
`net = income - expense`, and store the bucket back. -/
def aggStep (totals : TotalsMap) (tx : Txn) : TotalsMap :=
  let existing := (mapGet totals tx.date).getD { income := 0, expense := 0, net := 0 }
  let updated :=
    match tx.type with
    | .income => { existing with income := existing.income + tx.amount }
    | .expense => { existing with expense := existing.expense + tx.amount }
  mapSet totals tx.date { updated with net := updated.income - updated.expense }

/-- The daily aggregation of `fetchTransactions`: a single pass over the
fetched transactions, starting from the empty map. -/
def dailyTotals (txs : List Txn) : TotalsMap :=
  txs.foldl aggStep []

/-- Transactions of the list dated `d` with tag `ty`. -/
def txMatches (d : String) (ty : TxType) (t : Txn) : Bool :=
  t.date == d && t.type == ty

/-- Sum of the amounts of a transaction list. -/
def sumAmounts (txs : List Txn) : ℚ :=
  (txs.map (·.amount)).sum

/-- Total income recorded on date `d`. -/
def incomeSumOn (txs : List Txn) (d : String) : ℚ :=
  sumAmounts (txs.filter (txMatches d .income))

/-- Total expense recorded on date `d`. -/
def expenseSumOn (txs : List Txn) (d : String) : ℚ :=
  sumAmounts (txs.filter (txMatches d .expense))

/-- Number of transactions dated `d`. -/
def countOn (txs : List Txn) (d : String) : Nat :=
  (txs.filter (fun t => t.date == d)).length

/-- The three-transaction scenario of the spec (§8, property 7). -/
def scenarioTxs : List Txn :=
  [ { date := "2024-06-01", type := .income, amount := 1000 }
  , { date := "2024-06-01", type := .expense, amount := 300 }
  , { date := "2024-06-02", type := .expense, amount := 200 } ]

/-- A goal with a negative stored current amount, target 100. -/
def negCurrentGoal : SavingsGoal :=
  { goal_id := 7, goal_name := "テスト", target_amount := some 100,
    current_amount := some (-100), deadline := none, is_active := true }

/-- A goal whose deadline lies strictly in the past (months remaining −2). -/
def pastDeadlineGoal : SavingsGoal :=
  { goal_id := 1, goal_name := "旅行", target_amount := some 120000,
    current_amount := some 30000, deadline := some "1999-01-02",
    is_active := true }

/-- A goal with no deadline at all. -/
def noDeadlineGoal : SavingsGoal :=
  { goal_id := 2, goal_name := "貯金", target_amount := some 50000,
    current_amount := some 50000, deadline := none, is_active := true }

/-- A goal whose target coerces to zero. -/
def zeroTargetGoal : SavingsGoal :=
  { goal_id := 3, goal_name := "ゼロ", target_amount := some 0,
    current_amount := some 1000, deadline := none, is_active := true }

/-- A goal whose deadline string is present but not a parseable date. -/
def badDeadlineGoal : SavingsGoal :=
  { goal_id := 4, goal_name := "車", target_amount := some 200,
    current_amount := some 50, deadline := some "not-a-date",
    is_active := true }

/-- The scenario transactions in a different order (last moved first). -/
def scenarioTxsPerm : List Txn :=
  [ { date := "2024-06-02", type := .expense, amount := 200 }
  , { date := "2024-06-01", type := .income, amount := 1000 }
  , { date := "2024-06-01", type := .expense, amount := 300 } ]


theorem mapGet_mapSet_self (m : TotalsMap) (k : String) (v : DailyTotal) :
    mapGet (mapSet m k v) k = some v := by
  induction m with
  | nil => simp [mapSet, mapGet]
  | cons p rest ih =>
      obtain ⟨k', v'⟩ := p
      by_cases h : k' = k <;> simp [mapSet, mapGet, h, ih]

theorem mapGet_mapSet_ne (m : TotalsMap) (k k' : String) (v : DailyTotal)
    (h : k ≠ k') : mapGet (mapSet m k v) k' = mapGet m k' := by
  induction m with
  | nil => simp [mapSet, mapGet, h]
  | cons p rest ih =>
      obtain ⟨k0, v0⟩ := p
      by_cases h0 : k0 = k
      · subst h0; simp [mapSet, mapGet, h]
      · simp [mapSet, mapGet, h0, ih]

theorem dailyTotals_append_singleton (ts : List Txn) (t : Txn) :
    dailyTotals (ts ++ [t]) = aggStep (dailyTotals ts) t := by
  simp [dailyTotals, List.foldl_append]

theorem countOn_append_singleton (ts : List Txn) (t : Txn) (d : String) :
    countOn (ts ++ [t]) d = countOn ts d + (if t.date = d then 1 else 0) := by
  by_cases h : t.date = d <;>
    simp [countOn, List.filter_append, List.filter_cons, h]

theorem incomeSumOn_append_singleton (ts : List Txn) (t : Txn) (d : String) :
    incomeSumOn (ts ++ [t]) d =
      incomeSumOn ts d + (if t.date = d ∧ t.type = .income then t.amount else 0) := by
  by_cases h : t.date = d ∧ t.type = .income
  · simp [incomeSumOn, sumAmounts, List.filter_append, List.filter_cons,
      txMatches, h.1, h.2]
  · have h' : txMatches d .income t = false := by
      simp only [txMatches, Bool.and_eq_false_iff]
      rcases not_and_or.mp h with h1 | h1
      · exact Or.inl (by simpa using h1)
      · exact Or.inr (by simpa using h1)
    simp [incomeSumOn, sumAmounts, List.filter_append, List.filter_cons, h', h]

theorem expenseSumOn_append_singleton (ts : List Txn) (t : Txn) (d : String) :
    expenseSumOn (ts ++ [t]) d =
      expenseSumOn ts d + (if t.date = d ∧ t.type = .expense then t.amount else 0) := by
  by_cases h : t.date = d ∧ t.type = .expense
  · simp [expenseSumOn, sumAmounts, List.filter_append, List.filter_cons,
      txMatches, h.1, h.2]
  · have h' : txMatches d .expense t = false := by
      simp only [txMatches, Bool.and_eq_false_iff]
      rcases not_and_or.mp h with h1 | h1
      · exact Or.inl (by simpa using h1)
      · exact Or.inr (by simpa using h1)
    simp [expenseSumOn, sumAmounts, List.filter_append, List.filter_cons, h', h]

theorem incomeSumOn_eq_zero (ts : List Txn) (d : String)
    (h : countOn ts d = 0) : incomeSumOn ts d = 0 := by
  have hnil : ts.filter (txMatches d .income) = [] := by
    rw [List.filter_eq_nil_iff]
    intro t ht
    have hd : ¬((fun t : Txn => t.date == d) t = true) := by
      rw [countOn, List.length_eq_zero] at h
      exact List.filter_eq_nil_iff.mp h t ht
    simp only [txMatches, Bool.and_eq_true, not_and]
    intro hc
    exact absurd hc hd
  simp [incomeSumOn, sumAmounts, hnil]

theorem expenseSumOn_eq_zero (ts : List Txn) (d : String)
    (h : countOn ts d = 0) : expenseSumOn ts d = 0 := by
  have hnil : ts.filter (txMatches d .expense) = [] := by
    rw [List.filter_eq_nil_iff]
    intro t ht
    have hd : ¬((fun t : Txn => t.date == d) t = true) := by
      rw [countOn, List.length_eq_zero] at h
      exact List.filter_eq_nil_iff.mp h t ht
    simp only [txMatches, Bool.and_eq_true, not_and]
    intro hc
    exact absurd hc hd
  simp [expenseSumOn, sumAmounts, hnil]

/-- Lookup characterization of the aggregation: the bucket for a date is
exactly the pair of filtered sums with a consistent net, and exists exactly
when some transaction has that date. -/
theorem dailyTotals_lookup (txs : List Txn) (d : String) :
    mapGet (dailyTotals txs) d =
      if 0 < countOn txs d then
        some { income := incomeSumOn txs d, expense := expenseSumOn txs d,
               net := incomeSumOn txs d - expenseSumOn txs d }
      else none := by
  induction txs using List.reverseRecOn with
  | nil => simp [dailyTotals, mapGet, countOn]
  | append_singleton ts t ih =>
      rw [dailyTotals_append_singleton]
      obtain ⟨tdate, ttype, tamt⟩ := t
      by_cases hd : tdate = d
      · subst hd
        rw [countOn_append_singleton, incomeSumOn_append_singleton,
          expenseSumOn_append_singleton]
        by_cases hc : 0 < countOn ts tdate
        · cases ttype <;>
            simp [aggStep, mapGet_mapSet_self, ih, hc, Nat.lt_add_right 1 hc]
        · have h0 : countOn ts tdate = 0 := Nat.eq_zero_of_not_pos hc
          have hi := incomeSumOn_eq_zero ts tdate h0
          have he := expenseSumOn_eq_zero ts tdate h0
          cases ttype <;>
            simp [aggStep, mapGet_mapSet_self, ih, hc, hi, he, h0]
      · rw [aggStep]
        simp only []
        rw [mapGet_mapSet_ne _ _ _ _ hd]
        rw [countOn_append_singleton, incomeSumOn_append_singleton,
          expenseSumOn_append_singleton]
        have hd1 : ¬(tdate = d ∧ ttype = TxType.income) := fun hh => hd hh.1
        have hd2 : ¬(tdate = d ∧ ttype = TxType.expense) := fun hh => hd hh.1
        simp [ih, hd, hd1, hd2]

theorem fetchGoalsCalc_progress (env : DateEnv) (g : SavingsGoal) :
    (fetchGoalsCalc env g).progress_percentage =
      min (if numberOr0 g.target_amount > 0
           then numberOr0 g.current_amount / numberOr0 g.target_amount * 100
           else 0) 100 := rfl

theorem fetchGoalsCalc_monthly (env : DateEnv) (g : SavingsGoal) :
    (fetchGoalsCalc env g).monthly_required_amount =
      max (match parseDeadline env g with
           | some p =>
               if p.monthsFromNow > 0 then
                 (numberOr0 g.target_amount - numberOr0 g.current_amount) /
                   (p.monthsFromNow : ℚ)
               else 0
           | none => 0) 0 := rfl

theorem fetchGoalsCalc_months (env : DateEnv) (g : SavingsGoal) :
    (fetchGoalsCalc env g).months_remaining =
      (parseDeadline env g).map (·.monthsFromNow) := rfl

theorem fetchGoalsCalc_days (env : DateEnv) (g : SavingsGoal) :
    (fetchGoalsCalc env g).days_remaining =
      (parseDeadline env g).map (·.daysFromNow) := rfl

theorem fetchGoalsCalc_deadline (env : DateEnv) (g : SavingsGoal) :
    (fetchGoalsCalc env g).deadline =
      (match parseDeadline env g with
       | some p => p.isoDate
       | none => g.deadline.getD "") := rfl

theorem negCurrentGoal_progress :
    (fetchGoalsCalc sampleEnv negCurrentGoal).progress_percentage = -100 := by
  rw [fetchGoalsCalc_progress]
  norm_num [negCurrentGoal, numberOr0, min_def]

/-- C1 counterexample: with target 100 and stored current amount −100, the
computed progress_percentage is −100, which is not ≥ 0 — fetchGoals applies
`Math.min(progress, 100)` only, with no lower clamp at 0, so the claimed
`clamp(current / target * 100, 0, 100)` and the bound `0 ≤ progress` both
fail for a negative current amount. -/
theorem progress_percentage_below_zero :
    (fetchGoalsCalc sampleEnv negCurrentGoal).progress_percentage = -100 ∧
    ¬(0 ≤ (fetchGoalsCalc sampleEnv negCurrentGoal).progress_percentage ∧
      (fetchGoalsCalc sampleEnv negCurrentGoal).progress_percentage ≤ 100) := by
  refine ⟨negCurrentGoal_progress, ?_⟩
  rw [negCurrentGoal_progress]
  norm_num

/-- C1 (amended): progress_percentage equals `min(current / target * 100,
100)` when target > 0 and `0` otherwise — an upper clamp only — and it lies
within [0, 100] whenever the coerced current amount is non-negative. -/
theorem progress_percentage_spec (env : DateEnv) (g : SavingsGoal) :
    (0 < numberOr0 g.target_amount →
      (fetchGoalsCalc env g).progress_percentage =
        min (numberOr0 g.current_amount / numberOr0 g.target_amount * 100) 100) ∧
    (¬0 < numberOr0 g.target_amount →
      (fetchGoalsCalc env g).progress_percentage = 0) ∧
    (0 ≤ numberOr0 g.current_amount →
      0 ≤ (fetchGoalsCalc env g).progress_percentage ∧
      (fetchGoalsCalc env g).progress_percentage ≤ 100) := by
  rw [fetchGoalsCalc_progress]
  refine ⟨fun ht => by simp [ht], fun ht => by simp [ht], fun hc => ?_⟩
  by_cases ht : 0 < numberOr0 g.target_amount
  · have hnn : 0 ≤ numberOr0 g.current_amount / numberOr0 g.target_amount * 100 :=
      mul_nonneg (div_nonneg hc ht.le) (by norm_num)
    simp only [ht, if_pos]
    exact ⟨le_min hnn (by norm_num), min_le_right _ _⟩
  · simp only [ht, if_neg, not_false_iff]
    norm_num

/-- C1 amended-claim witness: the bounds instantiated at a concrete goal
with non-negative current amount. -/
theorem progress_percentage_spec_witness :
    0 ≤ (fetchGoalsCalc sampleEnv badDeadlineGoal).progress_percentage ∧
    (fetchGoalsCalc sampleEnv badDeadlineGoal).progress_percentage ≤ 100 :=
  (progress_percentage_spec sampleEnv badDeadlineGoal).2.2
    (by norm_num [badDeadlineGoal, numberOr0])

/-- C2: when the deadline parses, months_remaining ≤ 0 forces
monthly_required_amount = 0 (no division occurs), and a positive
months_remaining gives `max((target − current) / months_remaining, 0)`. -/
theorem monthly_required_spec (env : DateEnv) (g : SavingsGoal) (m : Int)
    (h : (fetchGoalsCalc env g).months_remaining = some m) :
    (m ≤ 0 → (fetchGoalsCalc env g).monthly_required_amount = 0) ∧
    (0 < m → (fetchGoalsCalc env g).monthly_required_amount =
      max ((numberOr0 g.target_amount - numberOr0 g.current_amount) / (m : ℚ)) 0) := by
  rw [fetchGoalsCalc_months] at h
  rw [fetchGoalsCalc_monthly]
  cases hp : parseDeadline env g with
  | none => rw [hp] at h; exact absurd h (by simp)
  | some p =>
      rw [hp] at h
      simp only [Option.map_some', Option.some.injEq] at h
      subst h
      constructor
      · intro hm
        simp [not_lt.mpr hm]
      · intro hm
        simp [hm]

/-- C2 witness: a deadline two months in the past yields months_remaining
= −2 and monthly_required_amount = 0. -/
theorem monthly_required_spec_witness :
    (fetchGoalsCalc sampleEnv pastDeadlineGoal).monthly_required_amount = 0 :=
  (monthly_required_spec sampleEnv pastDeadlineGoal (-2)
    (by rw [fetchGoalsCalc_months]; rfl)).1 (by norm_num)

/-- C3: when the deadline is absent or fails to parse as a date,
months_remaining and days_remaining are null and monthly_required_amount
is 0. -/
theorem null_fields_of_unparsed_deadline (env : DateEnv) (g : SavingsGoal)
    (h : parseDeadline env g = none) :
    (fetchGoalsCalc env g).months_remaining = none ∧
    (fetchGoalsCalc env g).days_remaining = none ∧
    (fetchGoalsCalc env g).monthly_required_amount = 0 := by
  rw [fetchGoalsCalc_months, fetchGoalsCalc_days, fetchGoalsCalc_monthly, h]
  simp

/-- C3 witness: instantiated at a goal with no deadline. -/
theorem null_fields_of_unparsed_deadline_witness :
    (fetchGoalsCalc sampleEnv noDeadlineGoal).months_remaining = none ∧
    (fetchGoalsCalc sampleEnv noDeadlineGoal).days_remaining = none ∧
    (fetchGoalsCalc sampleEnv noDeadlineGoal).monthly_required_amount = 0 :=
  null_fields_of_unparsed_deadline sampleEnv noDeadlineGoal rfl

/-- C4: a target amount coercing to 0 gives progress_percentage exactly 0
(the division is guarded by `targetAmount > 0`). -/
theorem progress_zero_of_target_zero (env : DateEnv) (g : SavingsGoal)
    (h : numberOr0 g.target_amount = 0) :
    (fetchGoalsCalc env g).progress_percentage = 0 := by
  rw [fetchGoalsCalc_progress, h]
  norm_num

/-- C4 witness: instantiated at a goal with target_amount = 0. -/
theorem progress_zero_of_target_zero_witness :
    (fetchGoalsCalc sampleEnv zeroTargetGoal).progress_percentage = 0 :=
  progress_zero_of_target_zero sampleEnv zeroTargetGoal rfl

/-- C9: a present but unparseable deadline string is carried back unchanged
on the derived record while both time fields resolve to null. -/
theorem deadline_preserved_when_unparseable (env : DateEnv) (g : SavingsGoal)
    (s : String) (hd : g.deadline = some s) (hs : s ≠ "")
    (hp : env.parseDate s = none) :
    (fetchGoalsCalc env g).deadline = s ∧
    (fetchGoalsCalc env g).months_remaining = none ∧
    (fetchGoalsCalc env g).days_remaining = none := by
  have h : parseDeadline env g = none := by
    rw [parseDeadline, hd]
    simp [strTruthy, hs, hp]
  rw [fetchGoalsCalc_deadline, fetchGoalsCalc_months, fetchGoalsCalc_days, h, hd]
  simp

/-- C9 witness: the string "not-a-date" is reported back while the derived
time fields are null. -/
theorem deadline_preserved_when_unparseable_witness :
    (fetchGoalsCalc sampleEnv badDeadlineGoal).deadline = "not-a-date" ∧
    (fetchGoalsCalc sampleEnv badDeadlineGoal).months_remaining = none ∧
    (fetchGoalsCalc sampleEnv badDeadlineGoal).days_remaining = none :=
  deadline_preserved_when_unparseable sampleEnv badDeadlineGoal "not-a-date"
    rfl (by decide) rfl

/-- C10: every insert issued by the goal-creation form carries
current_amount = 0 and is_active = true. -/
theorem createGoal_initial_state (goal_name : String) (target : Option ℚ)
    (deadline : String) (p : GoalInsert)
    (h : handleCreateGoal goal_name target deadline = .insert p) :
    p.current_amount = 0 ∧ p.is_active = true := by
  cases target with
  | none => exact absurd h (by simp [handleCreateGoal])
  | some t =>
      by_cases ht : t ≤ 0
      · exact absurd h (by simp [handleCreateGoal, ht])
      · rw [handleCreateGoal] at h
        simp only [ht, if_false, CreateGoalResult.insert.injEq] at h
        rw [← h]
        exact ⟨rfl, rfl⟩

/-- C10 witness: a concrete creation with target 500000 inserts current 0
and active true. -/
theorem createGoal_initial_state_witness :
    ({ goal_name := "車", target_amount := 500000, current_amount := 0,
       deadline := none, is_active := true } : GoalInsert).current_amount = 0 ∧
    ({ goal_name := "車", target_amount := 500000, current_amount := 0,
       deadline := none, is_active := true } : GoalInsert).is_active = true :=
  createGoal_initial_state "車" (some 500000) "" _ rfl

/-- C5: for every transaction list and date, the aggregated bucket (present
exactly when some transaction has that date, so no transaction leaks into
another date's bucket) carries the income sum, the expense sum and
net = income − expense; and the three-transaction scenario evaluates to the
two expected buckets. -/
theorem daily_aggregation_correct :
    (∀ (txs : List Txn) (d : String),
        mapGet (dailyTotals txs) d =
          if 0 < countOn txs d then
            some { income := incomeSumOn txs d, expense := expenseSumOn txs d,
                   net := incomeSumOn txs d - expenseSumOn txs d }
          else none) ∧
    mapGet (dailyTotals scenarioTxs) "2024-06-01" =
      some { income := 1000, expense := 300, net := 700 } ∧
    mapGet (dailyTotals scenarioTxs) "2024-06-02" =
      some { income := 0, expense := 200, net := -200 } :=
  ⟨dailyTotals_lookup, by
    rw [dailyTotals_lookup]
    simp [countOn, incomeSumOn, expenseSumOn, scenarioTxs, sumAmounts,
      txMatches, List.filter, instBEqOfDecidableEq]
    norm_num, by
    rw [dailyTotals_lookup]
    simp [countOn, incomeSumOn, expenseSumOn, scenarioTxs, sumAmounts,
      txMatches, List.filter, instBEqOfDecidableEq]⟩

/-- C6: the daily aggregation is permutation-invariant — two permuted
transaction lists give identical lookups for every date. -/
theorem daily_aggregation_perm_invariant (txs txs' : List Txn)
    (h : txs.Perm txs') (d : String) :
    mapGet (dailyTotals txs) d = mapGet (dailyTotals txs') d := by
  rw [dailyTotals_lookup, dailyTotals_lookup]
  have hcount : countOn txs d = countOn txs' d := by
    simpa [countOn] using (h.filter (fun t => t.date == d)).length_eq
  have hinc : incomeSumOn txs d = incomeSumOn txs' d := by
    simpa [incomeSumOn, sumAmounts] using
      ((h.filter (txMatches d .income)).map (·.amount)).sum_eq
  have hexp : expenseSumOn txs d = expenseSumOn txs' d := by
    simpa [expenseSumOn, sumAmounts] using
      ((h.filter (txMatches d .expense)).map (·.amount)).sum_eq
  rw [hcount, hinc, hexp]

/-- C6 witness: the scenario list and a reordering of it agree on the
2024-06-01 bucket. -/
theorem daily_aggregation_perm_invariant_witness :
    mapGet (dailyTotals scenarioTxs) "2024-06-01" =
      mapGet (dailyTotals scenarioTxsPerm) "2024-06-01" :=
  daily_aggregation_perm_invariant scenarioTxs scenarioTxsPerm
    (by decide) "2024-06-01"

/-- C7: the second entry screen validates the amount with `< 0` instead of
`<= 0`, so a submission with amount 0 passes validation and the insert call
is issued with amount 0 — violating the strictly-positive rule — while the
dashboard input screen correctly rejects 0 with an inline error and no
insert. -/
theorem part000_accepts_zero_amount :
    part000HandleSubmit .expense (some 0) (some 3) "2024-06-01" "" =
      .insert { type := .expense, amount := 0, category_id := 3,
                memo := none, date := "2024-06-01" } ∧
    inputPageHandleSubmit .expense (some 0) "食費" "" "2024-06-01" =
      .validationError "金額を正しく入力してください" :=
  ⟨rfl, rfl⟩

/-- C8: the dashboard input screen inserts the literal category_id 1
regardless of the category the user selected ("交通費" here), so the
persisted category is not the selected one. -/
theorem inputPage_category_hardcoded :
    inputPageHandleSubmit .expense (some 500) "交通費" "メモ" "2024-06-05" =
      .insert { type := .expense, amount := 500, category_id := 1,
                memo := some "メモ", date := "2024-06-05" } :=
  rfl
